import Mathlib

/-
Shallow embedding of the data pipeline of `src/streamlit_app.py` (the
Greatnessbio/timeline dashboard), together with theorems settling the
frozen claims about it.

Modelling conventions:
* A pandas `Timestamp` cell is a `Date` (whole days since 1970-01-01);
  `NaT`/missing is `none`.  `pd.to_datetime(..., errors='coerce')` is
  modelled as the identity on already-parsed `Option Date` cells, since no
  claim depends on the string-to-date parser itself.
* A dataframe is a `Raw`: the list of column names present in the CSV plus
  one `RawRow` per data row.  A `RawRow` field is meaningful only when the
  corresponding column name is present in `cols`; the accessors `colStr`,
  `colDate`, `colNum` return `none`/default when the column is absent,
  mirroring the fact that the dataframe simply does not have the column.
* Python exceptions that the pipeline can actually raise (`KeyError` from
  `df['missing']`, `ZeroDivisionError` from `x/0`) are modelled by
  `Except PyError`.
* Numeric cells are `Int` (the claims are about defaulting and ordering,
  not about float rounding).  The percentage metric uses `ℚ` for the true
  division of Python 3.
-/

namespace Timeline

/-- Days since 1970-01-01 (which was a Thursday). -/
abbrev Date := Int

/-- The Python exceptions the embedded pipeline can raise. -/
inductive PyError where
  | keyError (col : String)
  | zeroDivisionError
deriving DecidableEq

/-- One raw CSV row, after the permissive per-cell parsing of
`pd.read_csv` + `pd.to_datetime(errors='coerce')`: unparsable or empty
cells are `none`.  A field is only meaningful when its column is listed in
`Raw.cols`. -/
structure RawRow where
  name : Option String
  startDate : Option Date
  dueDate : Option Date
  createdAt : Option Date
  completedAt : Option Date
  lastModified : Option Date
  assignee : Option String
  projects : Option String
  deliverableStatus : Option String
  overdue : Option Bool
  estimatedHours : Option Int
  totalHoursEstimate : Option Int
  numberOfDelays : Option Int
  harvestHours : Option Int
deriving DecidableEq

/-- A raw uploaded dataframe: the set of columns the CSV header declares,
and the data rows. -/
structure Raw where
  cols : List String
  rows : List RawRow
deriving DecidableEq

/-- A processed task record, as produced by `load_and_process_data`:
original fields plus the derived `Duration` and `Completion_Status`
columns and the defaulted numeric columns.  `completionWeek` models the
`Completion_Week` column that `create_task_completion_trend` adds later:
`none` means the column does not exist on the frame, `some w` means it
exists and holds `w` (itself `none` for the string `NaT`). -/
structure Task where
  name : Option String
  startDate : Option Date
  dueDate : Option Date
  createdAt : Option Date
  completedAt : Option Date
  lastModified : Option Date
  assignee : Option String
  projects : Option String
  deliverableStatus : Option String
  overdue : Option Bool
  estimatedHours : Int
  totalHoursEstimate : Int
  numberOfDelays : Int
  harvestHours : Int
  duration : Option Int
  completionStatus : String
  completionWeek : Option (Option Int)
deriving DecidableEq

/-- `DATE_COLUMNS` of the source (line 8). -/
def DATE_COLUMNS : List String :=
  ["Start Date", "Due Date", "Created At", "Completed At", "Last Modified"]

/-- `NUMERIC_COLUMNS` of the source (line 9). -/
def NUMERIC_COLUMNS : List String :=
  ["Estimated Hours", "Total Hours Estimate", "Number of Delays", "Harvest Hours"]

/-- Value of a string column cell: the stored cell when the column exists,
`none` when the dataframe has no such column. -/
def colStr (cols : List String) (c : String) (v : Option String) : Option String :=
  if c ∈ cols then v else none

/-- Value of a date column cell (after the `errors='coerce'` pass of
lines 14-16): the parsed cell when the column exists, `none` otherwise. -/
def colDate (cols : List String) (c : String) (v : Option Date) : Option Date :=
  if c ∈ cols then v else none

/-- Line 24-28: a numeric column absent from the CSV is materialized as 0;
a present one is coerced with `errors='coerce'` and `fillna(0)`. -/
def colNum (cols : List String) (c : String) (v : Option Int) : Int :=
  if c ∈ cols then v.getD 0 else 0

/-- `row.get('Overdue')` of line 20: the cell when the column exists,
Python `None` (modelled `none`) when it does not. -/
def rowOverdueGet (cols : List String) (r : RawRow) : Option Bool :=
  if "Overdue" ∈ cols then r.overdue else none

/-- The status lambda of lines 19-21: `'Completed' if pd.notnull(row['Completed At'])
else 'Overdue' if row.get('Overdue') == True else 'In Progress'`. -/
def statusOf (completedAt : Option Date) (overdueGet : Option Bool) : String :=
  if completedAt.isSome then "Completed"
  else if overdueGet = some true then "Overdue"
  else "In Progress"

/-- Line 18: `(df['Due Date'] - df['Start Date']).dt.days`; `NaT` on either
side propagates to `NaN`. -/
def durationOf (startDate dueDate : Option Date) : Option Int :=
  match dueDate, startDate with
  | some d, some s => some (d - s)
  | _, _ => none

/-- One processed row of the dataframe returned by
`load_and_process_data`, assembling original columns, the derived columns
of lines 18-21, and the defaulted numeric columns of lines 24-28. -/
def mkTask (cols : List String) (r : RawRow) : Task where
  name := colStr cols "Name" r.name
  startDate := colDate cols "Start Date" r.startDate
  dueDate := colDate cols "Due Date" r.dueDate
  createdAt := colDate cols "Created At" r.createdAt
  completedAt := colDate cols "Completed At" r.completedAt
  lastModified := colDate cols "Last Modified" r.lastModified
  assignee := colStr cols "Assignee" r.assignee
  projects := colStr cols "Projects" r.projects
  deliverableStatus := colStr cols "Deliverable Status" r.deliverableStatus
  overdue := rowOverdueGet cols r
  estimatedHours := colNum cols "Estimated Hours" r.estimatedHours
  totalHoursEstimate := colNum cols "Total Hours Estimate" r.totalHoursEstimate
  numberOfDelays := colNum cols "Number of Delays" r.numberOfDelays
  harvestHours := colNum cols "Harvest Hours" r.harvestHours
  duration := durationOf (colDate cols "Start Date" r.startDate) (colDate cols "Due Date" r.dueDate)
  completionStatus := statusOf (colDate cols "Completed At" r.completedAt) (rowOverdueGet cols r)
  completionWeek := none

/-- `load_and_process_data` (lines 11-30).  The date coercion of
lines 14-16 never raises; the first access that can raise is
`df['Due Date']` on line 18 (Python evaluates the left operand of `-`
first), then `df['Start Date']`, then `row['Completed At']` inside the
`df.apply` of line 19 — the latter only when the frame has at least one
row, because pandas `apply` on an empty frame swallows exceptions from its
probe call and never runs the lambda on data.  There is no validation of
the `Name` column and no `SchemaError` anywhere in the source. -/
def load_and_process_data (raw : Raw) : Except PyError (List Task) :=
  if "Due Date" ∈ raw.cols then
    if "Start Date" ∈ raw.cols then
      if raw.rows = [] ∨ "Completed At" ∈ raw.cols then
        Except.ok (raw.rows.map (mkTask raw.cols))
      else Except.error (PyError.keyError "Completed At")
    else Except.error (PyError.keyError "Start Date")
  else Except.error (PyError.keyError "Due Date")

/-- `Series.isin(selection)` applied to one cell: a `NaN` cell never
matches any selection (pandas `isin` compares by equality and `NaN` is
equal to nothing). -/
def isin (v : Option String) (sel : List String) : Bool :=
  match v with
  | some s => decide (s ∈ sel)
  | none => false

/-- Lines 175-179 (and 34-38): the conjunction of the three
`isin` masks over `Assignee`, `Projects`, `Deliverable Status`.  Boolean
indexing builds a new frame; the input frame is untouched. -/
def filterTasks (ts : List Task) (selA selP selS : List String) : List Task :=
  ts.filter (fun t =>
    isin t.assignee selA && isin t.projects selP && isin t.deliverableStatus selS)

/-- First occurrence deduplication, the order `pandas.Series.unique`
returns values in. -/
def uniqueFirstAux [DecidableEq α] : List α → List α → List α
  | [], _ => []
  | x :: xs, seen =>
      if x ∈ seen then uniqueFirstAux xs seen else x :: uniqueFirstAux xs (x :: seen)

/-- `Series.unique()`: the distinct values in order of first appearance. -/
def uniqueFirst [DecidableEq α] (l : List α) : List α := uniqueFirstAux l []

/-- Lines 158-167: `df[col].dropna().unique().tolist()`, the default
("all") selection offered for one filter dimension. -/
def dropnaUnique (f : Task → Option String) (ts : List Task) : List String :=
  uniqueFirst (ts.filterMap f)

/-- Line 233: `filtered_df[filtered_df['Completed At'].notna()]`. -/
def completedTasks (ts : List Task) : List Task :=
  ts.filter (fun t => t.completedAt.isSome)

/-- Line 234: `len(completed_tasks)/len(filtered_df)*100`.  Python's `/`
on an empty frame divides by the integer 0 and raises
`ZeroDivisionError`; there is no guard in the source. -/
def completedPercentage (ts : List Task) : Except PyError ℚ :=
  if ts.length = 0 then Except.error PyError.zeroDivisionError
  else Except.ok (((completedTasks ts).length : ℚ) / (ts.length : ℚ) * 100)

/-- Stable insertion of `a` into `l`: `a` goes in front of the first
element not strictly below it, hence after all earlier equals. -/
def insertSorted (lt : α → α → Bool) (a : α) : List α → List α
  | [] => [a]
  | b :: bs => if lt b a then b :: insertSorted lt a bs else a :: b :: bs

/-- Stable ascending insertion sort by the strict comparison `lt`.
Models the value sort of pandas: numpy's argsort is insertion sort (hence
stable) on the small frames of the counterexamples below; the theorems
proved about the result (sortedness, permutation) hold for any ascending
sort, stable or not. -/
def sortByKey (lt : α → α → Bool) : List α → List α
  | [] => []
  | x :: xs => insertSorted lt x (sortByKey lt xs)

/-- Code-point lexicographic order on char lists, as Python compares
strings. -/
def charListLt : List Char → List Char → Bool
  | [], [] => false
  | [], _ :: _ => true
  | _ :: _, [] => false
  | c :: cs, d :: ds =>
      if c.toNat < d.toNat then true
      else if d.toNat < c.toNat then false
      else charListLt cs ds

/-- Python's `<` on strings (code-point lexicographic), the order
`groupby` sorts its keys in. -/
def strLt (a b : String) : Bool := charListLt a.data b.data

/-- `df.groupby('Assignee')` (line 86): the distinct non-null assignees,
sorted ascending (`sort=True` is the groupby default; `NaN` keys are
dropped). -/
def groupKeys (ts : List Task) : List String :=
  sortByKey strLt (uniqueFirst (ts.filterMap (fun t => t.assignee)))

/-- `df.groupby('Assignee')['Estimated Hours'].sum()` (line 86): one
`(assignee, summed hours)` row per group, in ascending key order. -/
def assigneeGroups (ts : List Task) : List (String × Int) :=
  (groupKeys ts).map (fun k =>
    (k, ((ts.filter (fun t => decide (t.assignee = some k))).map
          (fun t => t.estimatedHours)).sum))

/-- `.sort_values(ascending=False)` applied to the group sums (line 86):
pandas computes an ascending argsort of the values and reverses it, so the
result is the reverse of the ascending sort — equal sums end up in
descending key order, not ascending. -/
def workloadByAssignee (ts : List Task) : List (String × Int) :=
  (sortByKey (fun a b => decide (a.2 < b.2)) (assigneeGroups ts)).reverse

/-- `create_workload_by_assignee` (lines 84-90) as seen by the caller's
batch: the function only reads `df`, so the batch component of the result
is the input unchanged; the table component is the sorted group-sum. -/
def create_workload_by_assignee (ts : List Task) : List Task × List (String × Int) :=
  (ts, workloadByAssignee ts)

/-- `df['Completion_Status'].value_counts()` (line 77): count per distinct
status, sorted by descending count (reverse of an ascending sort, as for
`sort_values`). -/
def statusCounts (ts : List Task) : List (String × Nat) :=
  (sortByKey (fun a b => decide (a.2 < b.2))
    ((uniqueFirst (ts.map (fun t => t.completionStatus))).map
      (fun s => (s, (ts.filter (fun t => decide (t.completionStatus = s))).length)))).reverse

/-- `create_task_status_distribution` (lines 75-82) as seen by the
caller's batch: read-only. -/
def create_task_status_distribution (ts : List Task) : List Task × List (String × Nat) :=
  (ts, statusCounts ts)

/-- `Completed At` cell to the pandas `'W'` (week ending Sunday) period
index: day 0 (1970-01-01) was a Thursday, so the Monday-aligned week index
of day `d` is `(d + 3).fdiv 7`. -/
def weekPeriod (d : Date) : Int := (d + 3).fdiv 7

/-- Line 94: `df['Completion_Week'] = df['Completed At'].dt.to_period('W').astype(str)`.
This assignment MUTATES the frame passed in: the caller's batch gains a
`Completion_Week` column (`none ↦ some _`); the `NaT` label of a null
`Completed At` is modelled by the inner `none`. -/
def addCompletionWeek (t : Task) : Task :=
  { t with completionWeek := some (t.completedAt.map weekPeriod) }

/-- Line 95: completed rows grouped by their week period (keys ascending —
the string sort of the period labels is chronological), with group
sizes. -/
def completionTrend (ts : List Task) : List (Int × Nat) :=
  let comp := ts.filter (fun t => decide (t.completionStatus = "Completed"))
  (sortByKey (fun a b => decide (a < b))
    (uniqueFirst (comp.filterMap (fun t => t.completionWeek.getD none)))).map
    (fun w => (w, (comp.filter (fun t => decide (t.completionWeek.getD none = some w))).length))

/-- `create_task_completion_trend` (lines 92-98) as seen by the caller's
batch: line 94 writes the `Completion_Week` column into the input frame,
so the batch component of the result is the MUTATED batch, not the
input. -/
def create_task_completion_trend (ts : List Task) : List Task × List (Int × Nat) :=
  let ts2 := ts.map addCompletionWeek
  (ts2, completionTrend ts2)

/-- Modelled from the spec: the optional deterministic sampling step of
the Filter Engine (spec §4.4).  No sampling code exists in
`src/streamlit_app.py` (the spec consolidates repository variants not
present under `src/`), so this follows the spec's words: when the filtered
result exceeds `sample_limit`, a deterministic, seed-fixed subset of
exactly `sample_limit` records is returned together with a flag telling
the caller that sampling occurred; otherwise the full result is returned
with the flag off. -/
def sampleWithSeed (seed limit : Nat) (ts : List Task) : List Task × Bool :=
  if ts.length ≤ limit then (ts, false)
  else ((ts.rotate (seed % ts.length)).take limit, true)

/-- Helper: a successful `load_and_process_data` returns exactly the
per-row processing of the input. -/
theorem load_ok_eq (raw : Raw) (b : List Task)
    (hb : load_and_process_data raw = Except.ok b) :
    b = raw.rows.map (mkTask raw.cols) := by
  unfold load_and_process_data at hb
  split at hb
  · split at hb
    · split at hb
      · exact (Except.ok.injEq _ _ ▸ hb).symm
      · exact absurd hb (by simp)
    · exact absurd hb (by simp)
  · exact absurd hb (by simp)

/-- Helper: membership in the accumulator-based first-occurrence
deduplication. -/
theorem mem_uniqueFirstAux [DecidableEq α] (a : α) :
    ∀ (l seen : List α), a ∈ uniqueFirstAux l seen ↔ (a ∈ l ∧ a ∉ seen) := by
  intro l
  induction l with
  | nil => intro seen; simp [uniqueFirstAux]
  | cons x xs ih =>
    intro seen
    by_cases hx : x ∈ seen
    · rw [uniqueFirstAux, if_pos hx, ih]
      constructor
      · rintro ⟨h1, h2⟩; exact ⟨List.mem_cons_of_mem _ h1, h2⟩
      · rintro ⟨h1, h2⟩
        rcases List.mem_cons.mp h1 with rfl | h1
        · exact absurd hx h2
        · exact ⟨h1, h2⟩
    · rw [uniqueFirstAux, if_neg hx]
      constructor
      · intro h
        rcases List.mem_cons.mp h with rfl | h
        · exact ⟨List.mem_cons_self _ _, hx⟩
        · obtain ⟨h1, h2⟩ := (ih (x :: seen)).mp h
          refine ⟨List.mem_cons_of_mem _ h1, fun hc => h2 (List.mem_cons_of_mem _ hc)⟩
      · rintro ⟨h1, h2⟩
        rcases List.mem_cons.mp h1 with rfl | h1
        · exact List.mem_cons_self _ _
        · by_cases hax : a = x
          · exact hax ▸ List.mem_cons_self _ _
          · refine List.mem_cons_of_mem _ ((ih (x :: seen)).mpr ⟨h1, ?_⟩)
            intro hc
            rcases List.mem_cons.mp hc with rfl | hc
            · exact hax rfl
            · exact h2 hc

/-- Helper: `uniqueFirst` preserves membership. -/
theorem mem_uniqueFirst [DecidableEq α] (a : α) (l : List α) :
    a ∈ uniqueFirst l ↔ a ∈ l := by
  simpa [uniqueFirst] using mem_uniqueFirstAux a l []

/-- Helper: for a record of the batch, membership of its cell in the
"all" selection of its own column reduces to the cell being non-null. -/
theorem isin_dropnaUnique (f : Task → Option String) (ts : List Task)
    (t : Task) (ht : t ∈ ts) :
    isin (f t) (dropnaUnique f ts) = (f t).isSome := by
  cases hft : f t with
  | none => simp [isin]
  | some a =>
    have ha : a ∈ ts.filterMap f := List.mem_filterMap.mpr ⟨t, ht, hft⟩
    simp [isin, dropnaUnique, mem_uniqueFirst, ha]

/-- Helper: members of a stable insertion. -/
theorem perm_insertSorted (lt : α → α → Bool) (a : α) :
    ∀ l : List α, (insertSorted lt a l).Perm (a :: l) := by
  intro l
  induction l with
  | nil => exact List.Perm.refl _
  | cons b bs ih =>
    rw [insertSorted]
    split
    · exact ((ih.cons b).trans (List.Perm.swap a b bs))
    · exact List.Perm.refl _

/-- Helper: the insertion sort permutes its input. -/
theorem perm_sortByKey (lt : α → α → Bool) :
    ∀ l : List α, (sortByKey lt l).Perm l := by
  intro l
  induction l with
  | nil => exact List.Perm.refl _
  | cons x xs ih =>
    rw [sortByKey]
    exact (perm_insertSorted lt x (sortByKey lt xs)).trans (ih.cons x)

/-- Helper: membership in a stable insertion. -/
theorem mem_insertSorted (lt : α → α → Bool) (a x : α) (l : List α) :
    x ∈ insertSorted lt a l ↔ x = a ∨ x ∈ l := by
  rw [(perm_insertSorted lt a l).mem_iff, List.mem_cons]

/-- Helper: inserting into a sorted list keeps it sorted, for any
reflexive-free reading of `lt` compatible with the transitive order
`le`. -/
theorem pairwise_insertSorted (lt : α → α → Bool) (le : α → α → Prop)
    (h1 : ∀ x y, lt x y = true → le x y)
    (h2 : ∀ x y, lt x y = false → le y x)
    (htrans : ∀ x y z, le x y → le y z → le x z)
    (a : α) :
    ∀ l : List α, l.Pairwise le → (insertSorted lt a l).Pairwise le := by
  intro l
  induction l with
  | nil => intro _; simp [insertSorted]
  | cons b bs ih =>
    intro hp
    obtain ⟨hb, hbs⟩ := List.pairwise_cons.mp hp
    rw [insertSorted]
    split
    · rename_i hlt
      refine List.pairwise_cons.mpr ⟨?_, ih hbs⟩
      intro x hx
      rcases (mem_insertSorted lt a x bs).mp hx with rfl | hx
      · exact h1 b x hlt
      · exact hb x hx
    · rename_i hlt
      refine List.pairwise_cons.mpr ⟨?_, hp⟩
      intro x hx
      rcases List.mem_cons.mp hx with rfl | hx
      · exact h2 x a (Bool.not_eq_true _ ▸ hlt)
      · exact htrans a b x (h2 b a (Bool.not_eq_true _ ▸ hlt)) (hb x hx)

/-- Helper: the insertion sort is sorted. -/
theorem pairwise_sortByKey (lt : α → α → Bool) (le : α → α → Prop)
    (h1 : ∀ x y, lt x y = true → le x y)
    (h2 : ∀ x y, lt x y = false → le y x)
    (htrans : ∀ x y z, le x y → le y z → le x z) :
    ∀ l : List α, (sortByKey lt l).Pairwise le := by
  intro l
  induction l with
  | nil => simp [sortByKey]
  | cons x xs ih =>
    rw [sortByKey]
    exact pairwise_insertSorted lt le h1 h2 htrans x _ ih

/-- A raw row with every cell empty. -/
def blankRawRow : RawRow :=
  ⟨none, none, none, none, none, none, none, none, none, none, none, none, none, none⟩

/-- A processed task with every nullable field null and every numeric
field at its default 0 (the shape `load_and_process_data` gives an
all-empty row). -/
def blankTask : Task :=
  ⟨none, none, none, none, none, none, none, none, none, none, 0, 0, 0, 0, none,
    "In Progress", none⟩

/-- Scenario batch of the spec (§8): Task A completed on 2024-01-05
(day 19727), Task B overdue and not completed, Task C with all status
fields null. -/
def exRaw1 : Raw :=
  { cols := ["Name", "Start Date", "Due Date", "Completed At", "Overdue"],
    rows :=
      [{ blankRawRow with
          name := some "A"
          startDate := some 19723
          dueDate := some 19732
          completedAt := some 19727 },
        { blankRawRow with name := some "B", overdue := some true },
        { blankRawRow with name := some "C" }] }

/-- The processed scenario batch. -/
def exBatch1 : List Task := exRaw1.rows.map (mkTask exRaw1.cols)

/-- The processed Task B of the scenario (overdue, not completed). -/
def exTask1B : Task := mkTask exRaw1.cols { blankRawRow with name := some "B", overdue := some true }

/-- Duration scenario batch: 2024-01-01 → 2024-01-10 (9 days), the
reversed pair (−9 days, accepted), and a missing start date. -/
def exRaw2 : Raw :=
  { cols := ["Name", "Start Date", "Due Date", "Completed At"],
    rows :=
      [{ blankRawRow with name := some "D", startDate := some 19723, dueDate := some 19732 },
        { blankRawRow with name := some "E", startDate := some 19732, dueDate := some 19723 },
        { blankRawRow with name := some "F", dueDate := some 19732 }] }

/-- The processed duration scenario batch. -/
def exBatch2 : List Task := exRaw2.rows.map (mkTask exRaw2.cols)

/-- The first processed row of the duration scenario. -/
def exTask2a : Task :=
  mkTask exRaw2.cols { blankRawRow with name := some "D", startDate := some 19723, dueDate := some 19732 }

/-- A raw batch whose `Name` column is missing while the date columns are
all present. -/
def exRawNoName : Raw :=
  { cols := ["Start Date", "Due Date", "Completed At"],
    rows := [{ blankRawRow with startDate := some 19723, dueDate := some 19732 }] }

/-- A raw batch missing the `Due Date` column. -/
def exRawNoDue : Raw := { cols := ["Start Date"], rows := [] }

/-- A derived record whose `Assignee` is null but whose other filter
dimensions are set. -/
def exNullAssigneeTask : Task :=
  { blankTask with projects := some "P", deliverableStatus := some "S" }

/-- A one-record derived batch whose only record has a null assignee. -/
def ex4Tasks : List Task := [exNullAssigneeTask]

/-- A derived record with a null assignee, for the restrictive-filter
scenario. -/
def ex5Task : Task := { blankTask with name := some "orphan" }

/-- Three distinct derived records, input to the sampling witness. -/
def ex7Tasks : List Task :=
  [{ blankTask with name := some "t1" },
    { blankTask with name := some "t2" },
    { blankTask with name := some "t3" }]

/-- The second record of the sampling witness batch. -/
def ex7TaskB : Task := { blankTask with name := some "t2" }

/-- Two derived records with distinct assignees and EQUAL estimated
hours: a tie for the group-sum sort. -/
def exTieTasks : List Task :=
  [{ blankTask with name := some "a", assignee := some "Alice", estimatedHours := 5 },
    { blankTask with name := some "b", assignee := some "Bob", estimatedHours := 5 }]

/-- A one-record derived batch with a completed task, input to the
completion-trend aggregation. -/
def ex9Tasks : List Task :=
  [{ blankTask with
      name := some "done"
      completedAt := some 19727
      completionStatus := "Completed" }]

/-- A raw row that is not completed (null `Completed At`). -/
def exRow10 : RawRow :=
  { blankRawRow with name := some "G", startDate := some 19723, dueDate := some 19732 }

/-- A raw batch whose `Overdue` column is entirely absent. -/
def exRaw10 : Raw :=
  { cols := ["Name", "Start Date", "Due Date", "Completed At"], rows := [exRow10] }

/-- The processed record of the `Overdue`-less batch. -/
def ex10Task : Task := mkTask exRaw10.cols exRow10

/-- Helper: the three possible values of the status lambda. -/
theorem statusOf_cases (c : Option Date) (o : Option Bool) :
    statusOf c o = "Completed" ∨ statusOf c o = "Overdue" ∨ statusOf c o = "In Progress" := by
  unfold statusOf
  split
  · exact Or.inl rfl
  · split
    · exact Or.inr (Or.inl rfl)
    · exact Or.inr (Or.inr rfl)

/-- C1: for every record of a successfully processed batch, the derived
completion status follows the fixed precedence — non-null `Completed At`
gives Completed; else `Overdue` equal to True gives Overdue; else
In Progress (spelled "In Progress" in the source) — and the status is
always exactly one of those three strings, whatever the other fields
hold. -/
theorem completion_status_total_and_precedence (raw : Raw) (b : List Task)
    (hb : load_and_process_data raw = Except.ok b) (t : Task) (ht : t ∈ b) :
    t.completionStatus =
      (if t.completedAt.isSome then "Completed"
        else if t.overdue = some true then "Overdue" else "In Progress")
    ∧ (t.completionStatus = "Completed" ∨ t.completionStatus = "Overdue"
        ∨ t.completionStatus = "In Progress") := by
  rcases List.mem_map.mp (load_ok_eq raw b hb ▸ ht) with ⟨r, _, rfl⟩
  exact ⟨rfl, statusOf_cases _ _⟩

/-- Witness for C1 at the spec's three-task scenario: the statuses come
out [Completed, Overdue, In Progress], and the theorem instantiates at
Task B of that batch. -/
theorem completion_status_total_and_precedence_witness :
    exBatch1.map (fun t => t.completionStatus) = ["Completed", "Overdue", "In Progress"]
    ∧ (exTask1B.completionStatus =
        (if exTask1B.completedAt.isSome then "Completed"
          else if exTask1B.overdue = some true then "Overdue" else "In Progress")
      ∧ (exTask1B.completionStatus = "Completed" ∨ exTask1B.completionStatus = "Overdue"
          ∨ exTask1B.completionStatus = "In Progress")) :=
  ⟨by decide, completion_status_total_and_precedence exRaw1 exBatch1 rfl exTask1B (by decide)⟩

/-- C2: for every record of a successfully processed batch, the derived
duration is due date minus start date in whole days when both endpoints
are present — negative results included, nothing rejects them — and null
as soon as either endpoint is null. -/
theorem duration_null_propagating_difference (raw : Raw) (b : List Task)
    (hb : load_and_process_data raw = Except.ok b) (t : Task) (ht : t ∈ b) :
    (∀ s d : Date, t.startDate = some s → t.dueDate = some d → t.duration = some (d - s))
    ∧ ((t.startDate = none ∨ t.dueDate = none) → t.duration = none) := by
  rcases List.mem_map.mp (load_ok_eq raw b hb ▸ ht) with ⟨r, _, rfl⟩
  constructor
  · intro s d hs hd
    show durationOf (colDate raw.cols "Start Date" r.startDate)
        (colDate raw.cols "Due Date" r.dueDate) = some (d - s)
    rw [show colDate raw.cols "Start Date" r.startDate = some s from hs,
      show colDate raw.cols "Due Date" r.dueDate = some d from hd]
    rfl
  · intro h
    show durationOf (colDate raw.cols "Start Date" r.startDate)
        (colDate raw.cols "Due Date" r.dueDate) = none
    rcases h with h | h
    · rw [show colDate raw.cols "Start Date" r.startDate = none from h]
      cases colDate raw.cols "Due Date" r.dueDate <;> rfl
    · rw [show colDate raw.cols "Due Date" r.dueDate = none from h]
      rfl

/-- Witness for C2: the scenario start 2024-01-01 (day 19723) and due
2024-01-10 (day 19732) yields 9 days; the reversed pair yields −9 and is
accepted into the batch; a missing endpoint yields null. -/
theorem duration_null_propagating_difference_witness :
    exBatch2.map (fun t => t.duration) = [some 9, some (-9), none]
    ∧ exTask2a.duration = some (19732 - 19723) :=
  ⟨by decide,
    (duration_null_propagating_difference exRaw2 exBatch2 rfl exTask2a (by decide)).1
      19723 19732 rfl rfl⟩

/-- C10: on a raw batch whose `Overdue` column is entirely absent (and
whose otherwise-required columns are present), processing still succeeds
without raising, and every record with a null `Completed At` receives the
status In Progress: `row.get('Overdue')` returns None for the missing
column and `None == True` is false. -/
theorem overdue_column_absent_in_progress (raw : Raw)
    (hov : "Overdue" ∉ raw.cols)
    (hd : "Due Date" ∈ raw.cols) (hs : "Start Date" ∈ raw.cols)
    (hc : "Completed At" ∈ raw.cols) :
    load_and_process_data raw = Except.ok (raw.rows.map (mkTask raw.cols))
    ∧ ∀ t ∈ raw.rows.map (mkTask raw.cols),
        t.completedAt = none → t.completionStatus = "In Progress" := by
  constructor
  · unfold load_and_process_data
    rw [if_pos hd, if_pos hs, if_pos (Or.inr hc)]
  · intro t ht hnone
    rcases List.mem_map.mp ht with ⟨r, _, rfl⟩
    show statusOf (colDate raw.cols "Completed At" r.completedAt)
        (rowOverdueGet raw.cols r) = "In Progress"
    rw [show colDate raw.cols "Completed At" r.completedAt = none from hnone]
    unfold rowOverdueGet
    rw [if_neg hov]
    rfl

/-- Witness for C10: a batch with `Name`, `Start Date`, `Due Date`,
`Completed At` but no `Overdue` column processes fine and its
uncompleted record is In Progress. -/
theorem overdue_column_absent_in_progress_witness :
    load_and_process_data exRaw10 = Except.ok (exRaw10.rows.map (mkTask exRaw10.cols))
    ∧ ex10Task.completionStatus = "In Progress" :=
  ⟨(overdue_column_absent_in_progress exRaw10 (by decide) (by decide) (by decide)
      (by decide)).1,
    (overdue_column_absent_in_progress exRaw10 (by decide) (by decide) (by decide)
      (by decide)).2 ex10Task (by decide) (by decide)⟩

/-- C3 counterexample: a batch whose required `Name` column is missing is
accepted by ingestion — nothing fails, no SchemaError names the missing
column, contradicting the claim that a missing required column halts
processing. -/
theorem schema_missing_name_accepted :
    "Name" ∉ exRawNoName.cols ∧ (load_and_process_data exRawNoName).isOk = true := by
  decide

/-- C3 amended: ingestion has no schema validator and never produces a
SchemaError naming all missing columns.  It fails exactly when `Due Date`
or `Start Date` is absent, or the batch is non-empty and `Completed At`
is absent; the failure is a KeyError naming the single first-missing
column among those three (a column-level failure, never per-row), and the
`Name` column is not required at all. -/
theorem load_failure_characterization (raw : Raw) :
    ((∃ e, load_and_process_data raw = Except.error e) ↔
      ("Due Date" ∉ raw.cols ∨ "Start Date" ∉ raw.cols
        ∨ (raw.rows ≠ [] ∧ "Completed At" ∉ raw.cols)))
    ∧ (∀ e, load_and_process_data raw = Except.error e →
        e = PyError.keyError "Due Date" ∨ e = PyError.keyError "Start Date"
          ∨ e = PyError.keyError "Completed At") := by
  unfold load_and_process_data
  split_ifs with h1 h2 h3
  · refine ⟨⟨?_, ?_⟩, ?_⟩
    · rintro ⟨e, he⟩
      exact absurd he (by simp)
    · rintro (h | h | ⟨hne, hnc⟩)
      · exact absurd h1 h
      · exact absurd h2 h
      · rcases h3 with h3 | h3
        · exact absurd h3 hne
        · exact absurd h3 hnc
    · intro e he
      exact absurd he (by simp)
  · push_neg at h3
    refine ⟨⟨?_, ?_⟩, ?_⟩
    · intro _
      exact Or.inr (Or.inr h3)
    · intro _
      exact ⟨PyError.keyError "Completed At", rfl⟩
    · intro e he
      simp only [Except.error.injEq] at he
      exact Or.inr (Or.inr he.symm)
  · refine ⟨⟨?_, ?_⟩, ?_⟩
    · intro _
      exact Or.inr (Or.inl h2)
    · intro _
      exact ⟨PyError.keyError "Start Date", rfl⟩
    · intro e he
      simp only [Except.error.injEq] at he
      exact Or.inr (Or.inl he.symm)
  · refine ⟨⟨?_, ?_⟩, ?_⟩
    · intro _
      exact Or.inl h1
    · intro _
      exact ⟨PyError.keyError "Due Date", rfl⟩
    · intro e he
      simp only [Except.error.injEq] at he
      exact Or.inl he.symm

/-- Witness for the amended C3: on the batch missing its `Due Date`
column the raised error is one of the three possible KeyErrors. -/
theorem load_failure_characterization_witness :
    PyError.keyError "Due Date" = PyError.keyError "Due Date"
    ∨ PyError.keyError "Due Date" = PyError.keyError "Start Date"
    ∨ PyError.keyError "Due Date" = PyError.keyError "Completed At" :=
  (load_failure_characterization exRawNoDue).2 (PyError.keyError "Due Date") rfl

/-- C4 counterexample: with the default "all" selections (all non-null
values of each dimension, lines 158-167) the record whose assignee is
null is dropped by the filter of lines 175-179, so the filter is not the
identity on the derived batch. -/
theorem filter_all_drops_null_assignee :
    filterTasks ex4Tasks (dropnaUnique (fun t => t.assignee) ex4Tasks)
        (dropnaUnique (fun t => t.projects) ex4Tasks)
        (dropnaUnique (fun t => t.deliverableStatus) ex4Tasks) = []
    ∧ ex4Tasks ≠ [] := by
  decide

/-- C4 amended: filtering with the "all" selection on every set dimension
returns the batch restricted to the records whose assignee, project AND
deliverable status are all non-null; a record with a null in any of the
three dimensions is dropped, because pandas `isin` never matches `NaN`.
The filter is the identity exactly on batches with no null in those three
columns. -/
theorem filter_all_keeps_exactly_nonnull (ts : List Task) :
    filterTasks ts (dropnaUnique (fun t => t.assignee) ts)
        (dropnaUnique (fun t => t.projects) ts)
        (dropnaUnique (fun t => t.deliverableStatus) ts)
      = ts.filter (fun t =>
          t.assignee.isSome && t.projects.isSome && t.deliverableStatus.isSome) := by
  unfold filterTasks
  refine List.filter_congr ?_
  intro t ht
  rw [isin_dropnaUnique (fun t => t.assignee) ts t ht,
    isin_dropnaUnique (fun t => t.projects) ts t ht,
    isin_dropnaUnique (fun t => t.deliverableStatus) ts t ht]

/-- C5: a record with a null value in some set-filtered dimension is
excluded by every selection on that dimension (in particular by any
selection narrower than "all", such as `{assignees: {"Alice"}}`):
`isin` never matches a null cell — exclusion-by-absence. -/
theorem null_never_matches_set_filter (ts : List Task)
    (selA selP selS : List String) (t : Task)
    (h : t.assignee = none ∨ t.projects = none ∨ t.deliverableStatus = none) :
    t ∉ filterTasks ts selA selP selS := by
  intro hmem
  have hp := (List.mem_filter.mp hmem).2
  rcases h with h | h | h <;> rw [h] at hp <;> simp [isin] at hp

/-- Witness for C5 at the spec scenario: the assignee selection
`{"Alice"}` excludes the record whose assignee is null. -/
theorem null_never_matches_set_filter_witness :
    ex5Task ∉ filterTasks [ex5Task] ["Alice"] ["P"] ["S"] :=
  null_never_matches_set_filter [ex5Task] ["Alice"] ["P"] ["S"] ex5Task (Or.inl (by decide))

/-- C6: the completed-percentage metric of line 234 on an empty filtered
batch.  The source computes `len(completed_tasks)/len(filtered_df)*100`
with no emptiness guard, so an empty batch raises ZeroDivisionError
instead of yielding 0; the claim (and spec §4.5/§7, which demand a local
division guard) describes the intended behavior, the code omits it. -/
theorem completed_percentage_empty_raises :
    completedPercentage [] = Except.error PyError.zeroDivisionError := rfl

/-- C7 (spec-modelled; no sampling code exists under `src/`): the sampler
returns exactly `min(len(filtered), sample_limit)` records, reports via
its flag precisely whether truncation occurred, and returns only records
of its input; same seed, same input and same limit give the same subset
because `sampleWithSeed` is a pure function of those three arguments. -/
theorem sample_size_flag_and_subset (seed limit : Nat) (ts : List Task) :
    (sampleWithSeed seed limit ts).1.length = min ts.length limit
    ∧ ((sampleWithSeed seed limit ts).2 = decide (limit < ts.length))
    ∧ ∀ x, x ∈ (sampleWithSeed seed limit ts).1 → x ∈ ts := by
  unfold sampleWithSeed
  split
  · rename_i hle
    refine ⟨(Nat.min_eq_left hle).symm, ?_, fun x hx => hx⟩
    simp [Nat.not_lt.mpr hle]
  · rename_i hgt
    push_neg at hgt
    refine ⟨?_, ?_, ?_⟩
    · rw [List.length_take, List.length_rotate, Nat.min_comm]
    · simp [hgt]
    · intro x hx
      exact List.mem_rotate.mp (List.take_subset _ _ hx)

/-- Witness for C7: limit 2 on a 3-record batch with seed 7 returns
`min 3 2 = 2` records, raises the sampling flag, and the sampled record
t2 comes from the input batch. -/
theorem sample_size_flag_and_subset_witness :
    (sampleWithSeed 7 2 ex7Tasks).1.length = min ex7Tasks.length 2
    ∧ ((sampleWithSeed 7 2 ex7Tasks).2 = decide (2 < ex7Tasks.length))
    ∧ ex7TaskB ∈ ex7Tasks :=
  ⟨(sample_size_flag_and_subset 7 2 ex7Tasks).1,
    (sample_size_flag_and_subset 7 2 ex7Tasks).2.1,
    (sample_size_flag_and_subset 7 2 ex7Tasks).2.2 ex7TaskB (by decide)⟩

/-- C8 counterexample: two assignees with equal sums (Alice 5, Bob 5).
`groupby` yields ascending keys [Alice, Bob]; `sort_values(ascending=False)`
reverses an ascending argsort of the values, so the tie comes out
[Bob, Alice] — descending key order, not the claimed ascending order. -/
theorem workload_tie_order_descending :
    workloadByAssignee exTieTasks = [("Bob", 5), ("Alice", 5)]
    ∧ workloadByAssignee exTieTasks ≠ [("Alice", 5), ("Bob", 5)] := by
  decide

/-- C8 amended: the workload aggregation returns exactly the per-assignee
group sums (a permutation of `assigneeGroups`), sorted by descending sum;
ties between equal sums are NOT broken by ascending group key — reversing
the ascending value sort leaves equal sums in descending key order. -/
theorem workload_sorted_desc_perm (ts : List Task) :
    (workloadByAssignee ts).Pairwise (fun a b : String × Int => b.2 ≤ a.2)
    ∧ (workloadByAssignee ts).Perm (assigneeGroups ts) := by
  constructor
  · unfold workloadByAssignee
    rw [List.pairwise_reverse]
    refine pairwise_sortByKey _ (fun a b : String × Int => a.2 ≤ b.2) ?_ ?_ ?_ _
    · intro x y hxy
      exact le_of_lt (by simpa using hxy)
    · intro x y hxy
      exact le_of_not_lt (by simpa using hxy)
    · intro x y z hxy hyz
      exact le_trans hxy hyz
  · unfold workloadByAssignee
    exact (List.reverse_perm _).trans (perm_sortByKey _ _)

/-- C9 counterexample: running the weekly completion-trend aggregation on
a one-record derived batch changes the batch — line 94 writes the
`Completion_Week` column into the caller's frame — so a stage after the
Derived Field Calculator does mutate the batch, contradicting the claim
as stated. -/
theorem completion_trend_mutates_batch :
    (create_task_completion_trend ex9Tasks).1 ≠ ex9Tasks := by
  decide

/-- C9 amended: the set filter and the status-distribution and workload
aggregations leave the caller's batch untouched (the filter returns a
sublist of unmodified records), but the weekly completion-trend
aggregation mutates its input: the batch after the call is the input with
the `Completion_Week` column written into every record, not the input
itself. -/
theorem pipeline_stage_batch_effects (ts : List Task) (selA selP selS : List String) :
    (create_task_status_distribution ts).1 = ts
    ∧ (create_workload_by_assignee ts).1 = ts
    ∧ (filterTasks ts selA selP selS).Sublist ts
    ∧ (create_task_completion_trend ts).1 = ts.map addCompletionWeek :=
  ⟨rfl, rfl, List.filter_sublist _, rfl⟩

end Timeline
